import Mathlib

/-
Shallow embedding of the reactive-store library (src/lib.rs, src/observable.rs,
src/deduped.rs, src/derived.rs, src/event.rs).

Modelling conventions:
* User-supplied callbacks are closures with side effects; we model a side
  effect as a state transformer on an abstract observer state `σ` (typically
  tuples of counters, matching the repository's own tests, which register
  callbacks that bump a counter or record the pushed value).
* The registry `RwLock<HashMap<usize, Callback<Value>>>` is modelled as an
  association list `List (Nat × Callback Value σ)`; ids are handed out by the
  monotonically increasing `counter` field exactly as in the source, so keys
  are unique.  HashMap iteration order is unspecified; none of the proved
  statements depend on the list order used here.
* `RwLock<T>` contents become plain fields: every claim settled against this
  embedding is about a single-threaded (sequential) execution, except the
  concurrency claim, which gets its own explicit interleaving model below
  (`concStep`/`concRun`).
* The `usize` id counter is modelled as `Nat`; the wrap-around at 2^64 is
  unreachable in every statement proved here.
-/

/-- lib.rs, `enum Callback<Value>`: a registered callback is either a
`Subscriber` (receives the current value) or a `Listener` (no argument). -/
inductive Callback (Value σ : Type) where
  | Subscriber (func : Value → σ → σ)
  | Listener (func : σ → σ)

/-- Invoking one callback during dispatch (the `match` inside `notify`):
a Subscriber receives the freshly read value, a Listener receives nothing. -/
def Callback.run {Value σ : Type} : Callback Value σ → Value → σ → σ
  | .Subscriber f, v, s => f v s
  | .Listener f, _, s => f s

/-- observable.rs, `struct Observable<Value>`: current value, callback
registry, and the id counter. -/
structure Observable (Value σ : Type) where
  value : Value
  callbacks : List (Nat × Callback Value σ)
  counter : Nat

/-- observable.rs, `Observable::new`. -/
def Observable.new {Value σ : Type} (value : Value) : Observable Value σ :=
  { value := value, callbacks := [], counter := 0 }

/-- observable.rs, `Observable::notify`: read the value once, then invoke
every registered callback with it. -/
def Observable.notify {Value σ : Type} (o : Observable Value σ) (s : σ) : σ :=
  o.callbacks.foldl (fun s p => p.2.run o.value s) s

/-- observable.rs, `Readable::get` for Observable. -/
def Observable.get {Value σ : Type} (o : Observable Value σ) : Value :=
  o.value

/-- observable.rs, `Emitter::listen` for Observable: take the next id,
increment the counter, insert a Listener entry.  The callback is NOT invoked.
Returns the new state, the id (standing for the unregister handle), and the
unchanged observer state. -/
def Observable.listen {Value σ : Type} (o : Observable Value σ) (cb : σ → σ)
    (s : σ) : Observable Value σ × Nat × σ :=
  ({ o with
      counter := o.counter + 1
      callbacks := o.callbacks ++ [(o.counter, Callback.Listener cb)] },
   o.counter, s)

/-- observable.rs, `Readable::subscribe` for Observable: read the current
value, invoke the callback once with it, then insert a Subscriber entry under
the next id. -/
def Observable.subscribe {Value σ : Type} (o : Observable Value σ)
    (cb : Value → σ → σ) (s : σ) : Observable Value σ × Nat × σ :=
  ({ o with
      counter := o.counter + 1
      callbacks := o.callbacks ++ [(o.counter, Callback.Subscriber cb)] },
   o.counter, cb o.value s)

/-- observable.rs, the unsubscribe closure returned by listen/subscribe:
`self.callbacks.write().unwrap().remove(&id)` — removes the entry with that
id; removing an absent id is a no-op. -/
def Observable.unsubscribe {Value σ : Type} (o : Observable Value σ)
    (id : Nat) : Observable Value σ :=
  { o with callbacks := o.callbacks.filter (fun p => p.1 ≠ id) }

/-- observable.rs, `Writable::set` for Observable: overwrite the value, then
notify every registered callback. -/
def Observable.set {Value σ : Type} (o : Observable Value σ) (v : Value)
    (s : σ) : Observable Value σ × σ :=
  let o1 := { o with value := v }
  (o1, o1.notify s)

/-- observable.rs, `Writable::update` for Observable: compute
`updater(current)` and then perform `set` with the result. -/
def Observable.update {Value σ : Type} (o : Observable Value σ)
    (f : Value → Value) (s : σ) : Observable Value σ × σ :=
  o.set (f o.value) s

/-
deduped.rs.  `struct Deduped<Value, Target>` holds a shadow `value`, its own
`callbacks` registry and `counter`, plus `target: Arc<Target>`.  Because the
target's registry stores a closure that mutates the Deduped, the target cannot
be a field of the Deduped structure in the embedding; instead the target is an
`Observable Value (Deduped Value σ × σ)` carried alongside: the target's
callbacks act on the pair of the Deduped's state and the outer observer state.
-/

/-- deduped.rs, `struct Deduped`: shadow value, registry, id counter (the
`target` field is carried alongside, see above). -/
structure Deduped (Value σ : Type) where
  value : Value
  callbacks : List (Nat × Callback Value σ)
  counter : Nat

/-- deduped.rs, `Deduped::notify`: read the shadow value once, then invoke
every registered callback with it. -/
def Deduped.notify {Value σ : Type} (d : Deduped Value σ) (s : σ) : σ :=
  d.callbacks.foldl (fun s p => p.2.run d.value s) s

/-- deduped.rs lines 47-55, the closure `Deduped::from` registers on the
target: given the pushed value, compare it with the shadow; only if they
differ, overwrite the shadow and dispatch the Deduped's own registry. -/
def Deduped.onTarget {Value σ : Type} [DecidableEq Value] (v : Value)
    (ds : Deduped Value σ × σ) : Deduped Value σ × σ :=
  if ds.1.value ≠ v then
    let d1 := { ds.1 with value := v }
    (d1, d1.notify ds.2)
  else ds

/-- deduped.rs, `Deduped::from` (named fromTarget since `from` is a Lean
keyword): build the instance with shadow = `target.get()`, empty registry,
counter 0, then `target.subscribe` the comparison closure — which, per
`subscribe`, runs once immediately with the target's current value.  Returns
the updated target, the new Deduped, and the observer state. -/
def Deduped.fromTarget {Value σ : Type} [DecidableEq Value]
    (target : Observable Value (Deduped Value σ × σ)) (s : σ) :
    Observable Value (Deduped Value σ × σ) × Deduped Value σ × σ :=
  let instance0 : Deduped Value σ :=
    { value := target.get, callbacks := [], counter := 0 }
  let r := target.subscribe (fun v ds => Deduped.onTarget v ds) (instance0, s)
  (r.1, r.2.2)

/-- deduped.rs, `Readable::get` for Deduped: returns the shadow value. -/
def Deduped.get {Value σ : Type} (d : Deduped Value σ) : Value :=
  d.value

/-- deduped.rs, `Emitter::listen` for Deduped: same registry logic as
Observable's listen; the callback is not invoked at registration. -/
def Deduped.listen {Value σ : Type} (d : Deduped Value σ) (cb : σ → σ)
    (s : σ) : Deduped Value σ × Nat × σ :=
  ({ d with
      counter := d.counter + 1
      callbacks := d.callbacks ++ [(d.counter, Callback.Listener cb)] },
   d.counter, s)

/-- deduped.rs, `Readable::subscribe` for Deduped: invoke the callback once
with the shadow value, then insert a Subscriber entry. -/
def Deduped.subscribe {Value σ : Type} (d : Deduped Value σ)
    (cb : Value → σ → σ) (s : σ) : Deduped Value σ × Nat × σ :=
  ({ d with
      counter := d.counter + 1
      callbacks := d.callbacks ++ [(d.counter, Callback.Subscriber cb)] },
   d.counter, cb d.value s)

/-- deduped.rs, the unsubscribe closure for Deduped registrations. -/
def Deduped.unsubscribe {Value σ : Type} (d : Deduped Value σ) (id : Nat) :
    Deduped Value σ :=
  { d with callbacks := d.callbacks.filter (fun p => p.1 ≠ id) }

/-- deduped.rs, `Writable::set` for Deduped: forward to `target.set` — the
Deduped's shadow is updated only through the closure sitting in the target's
registry, never synchronously by `set` itself. -/
def Deduped.set {Value σ : Type}
    (target : Observable Value (Deduped Value σ × σ)) (d : Deduped Value σ)
    (v : Value) (s : σ) :
    Observable Value (Deduped Value σ × σ) × Deduped Value σ × σ :=
  let r := target.set v (d, s)
  (r.1, r.2)

/-- deduped.rs, `Writable::update` for Deduped: forward to `target.update`. -/
def Deduped.update {Value σ : Type}
    (target : Observable Value (Deduped Value σ × σ)) (d : Deduped Value σ)
    (f : Value → Value) (s : σ) :
    Observable Value (Deduped Value σ × σ) × Deduped Value σ × σ :=
  let r := target.update f (d, s)
  (r.1, r.2)

/-- The target cell as it stands right after `Deduped::fromTarget` ran on
`Observable.new v0`: its registry holds exactly the comparison closure under
id 0, and the counter is 1.  Quantifying over `d` then covers every
combination of shadow value and of listeners/subscribers registered on the
Deduped afterwards (those registrations touch only the Deduped's own state). -/
def dedupTarget (Value σ : Type) [DecidableEq Value] (v0 : Value) :
    Observable Value (Deduped Value σ × σ) :=
  { value := v0
    callbacks := [(0, Callback.Subscriber (fun v ds => Deduped.onTarget v ds))]
    counter := 1 }

/-
derived.rs.  `struct Derived<Value>` holds the cached `value`, the retained
`compute` closure, its `callbacks` registry and `counter`.  The claims use the
configuration of the doc example and tests: two upstream cells `a`, `b`, whose
registries hold exactly the listener that `Derived::new` installs on each
target, and a `compute` closure that captures `a` and `b` and reads their
current values.  The embedding therefore carries the two upstream cell values
as fields `a`, `b`, and `compute` is a function of those two current values.
-/

/-- derived.rs, `struct Derived` in the two-upstream-cells configuration:
`a`, `b` are the current values of the captured upstream cells; `value` is
the cached result; `compute` is the retained recomputation closure (reading
the upstream cells); `callbacks`/`counter` are the Derived's own registry. -/
structure Derived (σ : Type) where
  a : Int
  b : Int
  value : Int
  compute : Int → Int → Int
  callbacks : List (Nat × Callback Int σ)
  counter : Nat

/-- derived.rs, `Derived::notify`: read the cached value once, then invoke
every registered callback with it. -/
def Derived.notify {σ : Type} (d : Derived σ) (s : σ) : σ :=
  d.callbacks.foldl (fun s p => p.2.run d.value s) s

/-- derived.rs, `Derived::new` (lines 40-66): evaluate `compute` once for the
initial cached value; registry empty, counter 0.  The listeners it registers
on each target are modelled structurally by `Derived.setA`/`Derived.setB`. -/
def Derived.new {σ : Type} (a0 b0 : Int) (f : Int → Int → Int) : Derived σ :=
  { a := a0, b := b0, value := f a0 b0, compute := f, callbacks := [],
    counter := 0 }

/-- derived.rs lines 54-62, the listener `Derived::new` registers on each
upstream target: re-evaluate `compute` (reading the upstream cells' current
values), overwrite the cached value, then dispatch the Derived's registry. -/
def Derived.onUpstream {σ : Type} (d : Derived σ) (s : σ) : Derived σ × σ :=
  let d1 := { d with value := d.compute d.a d.b }
  (d1, d1.notify s)

/-- `a.set v` as seen by the Derived system: the cell overwrites its value,
then its registry — holding exactly the listener installed by `Derived::new`
— fires, running `Derived.onUpstream` (observable.rs `set` + derived.rs
listener). -/
def Derived.setA {σ : Type} (d : Derived σ) (v : Int) (s : σ) :
    Derived σ × σ :=
  Derived.onUpstream { d with a := v } s

/-- `b.set v` as seen by the Derived system; see `Derived.setA`. -/
def Derived.setB {σ : Type} (d : Derived σ) (v : Int) (s : σ) :
    Derived σ × σ :=
  Derived.onUpstream { d with b := v } s

/-- derived.rs, `Readable::get` for Derived: returns the cached value. -/
def Derived.get {σ : Type} (d : Derived σ) : Int :=
  d.value

/-- derived.rs, `Emitter::listen` for Derived: registry insertion only, the
callback is not invoked. -/
def Derived.listen {σ : Type} (d : Derived σ) (cb : σ → σ) (s : σ) :
    Derived σ × Nat × σ :=
  ({ d with
      counter := d.counter + 1
      callbacks := d.callbacks ++ [(d.counter, Callback.Listener cb)] },
   d.counter, s)

/-- derived.rs, `Readable::subscribe` for Derived: invoke the callback once
with the cached value, then insert a Subscriber entry. -/
def Derived.subscribe {σ : Type} (d : Derived σ) (cb : Int → σ → σ)
    (s : σ) : Derived σ × Nat × σ :=
  ({ d with
      counter := d.counter + 1
      callbacks := d.callbacks ++ [(d.counter, Callback.Subscriber cb)] },
   d.counter, cb d.value s)

/-- derived.rs, the unsubscribe closure for Derived registrations. -/
def Derived.unsubscribe {σ : Type} (d : Derived σ) (id : Nat) : Derived σ :=
  { d with callbacks := d.callbacks.filter (fun p => p.1 ≠ id) }

/-- event.rs, `struct Event`: registry of no-argument callbacks (stored
directly as boxed closures, no Callback enum) and the id counter. -/
structure Event (σ : Type) where
  callbacks : List (Nat × (σ → σ))
  counter : Nat

/-- event.rs, `Event::new`: empty registry, counter 0. -/
def Event.new {σ : Type} : Event σ :=
  { callbacks := [], counter := 0 }

/-- event.rs, `Event::dispatch`: invoke every registered callback with no
argument. -/
def Event.dispatch {σ : Type} (e : Event σ) (s : σ) : σ :=
  e.callbacks.foldl (fun s p => p.2 s) s

/-- event.rs, `Emitter::listen` for Event: take the next id, increment the
counter, insert the callback; it is not invoked at registration. -/
def Event.listen {σ : Type} (e : Event σ) (cb : σ → σ) (s : σ) :
    Event σ × Nat × σ :=
  ({ callbacks := e.callbacks ++ [(e.counter, cb)], counter := e.counter + 1 },
   e.counter, s)

/-- event.rs, the unsubscribe closure returned by `Event::listen`. -/
def Event.unsubscribe {σ : Type} (e : Event σ) (id : Nat) : Event σ :=
  { e with callbacks := e.callbacks.filter (fun p => p.1 ≠ id) }

/-
Interleaving model for concurrent `Observable::update` (observable.rs lines
108-111).  `update` is two separate critical sections: it acquires the value
READ lock only for the duration of `updater(&self.value.read().unwrap())` —
the guard is a temporary dropped at the end of that statement — and then
`set` acquires the value WRITE lock to store the result and notifies.  So a
thread's update is two atomic actions that other threads can interleave
between:
  readCompute t — thread t reads the current value and computes `f` of it;
  writeNotify t — thread t stores its computed value and runs `notify`.
One counting listener is registered (as in the repository's own
`it_works_in_threads` test); `notifyCount` counts its invocations.
-/

/-- One thread-step of a concurrent `update(|v| v+1)`-style run. -/
inductive ConcAct where
  | readCompute (t : Nat)
  | writeNotify (t : Nat)
  deriving DecidableEq

/-- State of a cell under concurrent updates: current value, number of times
the counting listener has run, and each thread's computed-but-unwritten
result (`none` before its read or after its write). -/
structure ConcState where
  value : Int
  notifyCount : Nat
  pending : List (Option Int)

/-- Execute one atomic action of a concurrent update run.  `readCompute t`
is the read-lock section of `update`; `writeNotify t` is the `set` it then
performs (write + notify).  A `writeNotify` with nothing pending does
nothing (no such schedule is used). -/
def concStep (f : Int → Int) (st : ConcState) : ConcAct → ConcState
  | .readCompute t => { st with pending := st.pending.set t (some (f st.value)) }
  | .writeNotify t =>
      match st.pending.get? t with
      | some (some v) =>
          { value := v, notifyCount := st.notifyCount + 1,
            pending := st.pending.set t none }
      | _ => st

/-- Run a schedule of atomic actions for `n` threads, each performing
`update f` once, on a cell initialized to 0 with one counting listener. -/
def concRun (f : Int → Int) (n : Nat) (acts : List ConcAct) : ConcState :=
  acts.foldl (concStep f)
    { value := 0, notifyCount := 0, pending := List.replicate n none }

/-- A schedule in which every thread in `0..n` performs exactly one
`readCompute` followed (later) by exactly one `writeNotify`: the actions of
`n` threads each calling `update` exactly once. -/
def validSchedule (n : Nat) (acts : List ConcAct) : Prop :=
  (∀ t < n,
      acts.count (ConcAct.readCompute t) = 1 ∧
      acts.count (ConcAct.writeNotify t) = 1) ∧
  (∀ t < n, ∀ i j : Fin acts.length,
      acts.get i = ConcAct.readCompute t → acts.get j = ConcAct.writeNotify t →
      (i : Nat) < (j : Nat)) ∧
  ∀ a ∈ acts, ∃ t < n, a = ConcAct.readCompute t ∨ a = ConcAct.writeNotify t

/-
Instrumented scenarios used by the claims.
-/

/-- State of the C1 scenario: the wrapped cell, the Deduped, and the two
invocation counters (first: a listener registered on the Deduped, second: a
subscriber registered on the Deduped). -/
abbrev DedupSys := Observable Int (Deduped Int (Nat × Nat) × (Nat × Nat)) ×
  Deduped Int (Nat × Nat) × (Nat × Nat)

/-- Build the C1 scenario: a cell holding `v0`, wrapped by `Deduped::from`,
then a counting listener and a counting subscriber registered on the Deduped
(both counters start at 0; the subscriber fires once at registration). -/
def c1Setup (v0 : Int) : DedupSys :=
  let r0 := Deduped.fromTarget (Observable.new v0) ((0, 0) : Nat × Nat)
  let r1 := r0.2.1.listen (fun p => (p.1 + 1, p.2)) r0.2.2
  let r2 := r1.1.subscribe (fun _ p => (p.1, p.2 + 1)) r1.2.2
  (r0.1, r2.1, r2.2.2)

/-- `cell.set x` in the C1 scenario: the write goes to the wrapped cell,
whose registry holds the Deduped's comparison closure. -/
def c1Step (st : DedupSys) (x : Int) : DedupSys :=
  let r := st.1.set x (st.2.1, st.2.2)
  (r.1, r.2.1, r.2.2)

/-- C6 scenario: an Observable holding `v0` with one counting listener and
one counting subscriber registered (ids 0 and 1, counter 2 — the state after
`new`, `listen`, `subscribe`). -/
def c6Obs (v0 : Int) : Observable Int (Nat × Nat) :=
  { value := v0
    callbacks := [(0, Callback.Listener (fun p => (p.1 + 1, p.2))),
                  (1, Callback.Subscriber (fun _ p => (p.1, p.2 + 1)))]
    counter := 2 }

/-- C6 scenario, general registry size: an Observable with `k` counting
listeners all bumping one shared counter (the state after `new` and `k`
`listen` calls). -/
def c6ObsK (v0 : Int) (k : Nat) : Observable Int Nat :=
  { value := v0
    callbacks := (List.range k).map
      (fun i => (i, Callback.Listener (fun n => n + 1)))
    counter := k }

/-- C2 scenario: `Derived::new` over cells holding `a0` and `b0` with
recompute closure `f`, then one counting listener registered on the
Derived. -/
def c2System (a0 b0 : Int) (f : Int → Int → Int) : Derived Nat × Nat :=
  let r := (Derived.new a0 b0 f : Derived Nat).listen (fun n => n + 1) 0
  (r.1, r.2.2)

/-- Sanity check relating the two Deduped constructions: `dedupTarget v0` is
exactly the target cell produced by running `Deduped::from` on a fresh cell
holding `v0` (which is also what `Deduped::new v0` does). -/
lemma dedupTarget_spec {Value σ : Type} [DecidableEq Value] (v0 : Value)
    (s : σ) :
    (Deduped.fromTarget
        (Observable.new v0 : Observable Value (Deduped Value σ × σ)) s).1
      = dedupTarget Value σ v0 := by
  simp [Deduped.fromTarget, Observable.subscribe, Observable.new, dedupTarget]

/-- Claim C5: subscribing to a readable entity (Observable, Deduped or
Derived) holding value v invokes the callback synchronously exactly once
with v before `subscribe` returns, while `listen` never invokes the callback
at registration time. -/
theorem c5_subscribe_immediate_listen_silent {Value σ σ2 : Type}
    (o : Observable Value σ) (d : Deduped Value σ) (dv : Derived σ2)
    (cb : Value → σ → σ) (cbl : σ → σ) (cb2 : Int → σ2 → σ2) (cbl2 : σ2 → σ2)
    (s : σ) (s2 : σ2) :
    ((o.subscribe cb s).2.2 = cb o.get s ∧ (o.listen cbl s).2.2 = s)
  ∧ ((d.subscribe cb s).2.2 = cb d.get s ∧ (d.listen cbl s).2.2 = s)
  ∧ ((dv.subscribe cb2 s2).2.2 = cb2 dv.get s2 ∧ (dv.listen cbl2 s2).2.2 = s2) :=
  ⟨⟨rfl, rfl⟩, ⟨rfl, rfl⟩, ⟨rfl, rfl⟩⟩

/-- Claim C10: each Observable operation modifies only its designated state
component — `set`/`update` change only the stored value, `get` reads without
modifying anything (it is a pure function of the state), and
`listen`/`subscribe`/`unsubscribe` leave the stored value untouched. -/
theorem c10_observable_frame_conditions {Value σ : Type}
    (o : Observable Value σ) (v : Value) (f : Value → Value) (cb : σ → σ)
    (cbs : Value → σ → σ) (s : σ) (i : Nat) :
    ((o.set v s).1.value = v ∧ (o.set v s).1.callbacks = o.callbacks ∧
      (o.set v s).1.counter = o.counter)
  ∧ ((o.update f s).1.value = f o.value ∧
      (o.update f s).1.callbacks = o.callbacks ∧
      (o.update f s).1.counter = o.counter)
  ∧ o.get = o.value
  ∧ ((o.listen cb s).1.value = o.value ∧ (o.subscribe cbs s).1.value = o.value)
  ∧ ((o.unsubscribe i).value = o.value ∧ (o.unsubscribe i).counter = o.counter) :=
  ⟨⟨rfl, rfl, rfl⟩, ⟨rfl, rfl, rfl⟩, rfl, ⟨rfl, rfl⟩, ⟨rfl, rfl⟩⟩

/-- Claim C9: `Deduped::from` never dispatches any callback registered on the
new Deduped (its registry is empty and the immediate subscription firing is
suppressed by the equality check against the freshly copied shadow), returns
with shadow value equal to the source's current value, and leaves both the
observer state and the target's value untouched. -/
theorem c9_deduped_construction_silent {Value σ : Type} [DecidableEq Value]
    (target : Observable Value (Deduped Value σ × σ)) (s : σ) :
    (Deduped.fromTarget target s).2.1.get = target.get
  ∧ (Deduped.fromTarget target s).2.2 = s
  ∧ (Deduped.fromTarget target s).2.1.callbacks = []
  ∧ (Deduped.fromTarget target s).1.value = target.value := by
  simp [Deduped.fromTarget, Observable.subscribe, Deduped.onTarget,
    Observable.get, Deduped.get]

/-- Claim C4: for a Deduped wrapping a writable cell, `deduped.set x`
forwards to the cell, after which both `cell.get` and `deduped.get` equal x;
`deduped.update f` forwards likewise, after which both equal f applied to
the previous cell value.  The shadow `d` is arbitrary, covering every
combination of registrations made on the Deduped. -/
theorem c4_deduped_passthrough_writes {Value σ : Type} [DecidableEq Value]
    (v0 x : Value) (d : Deduped Value σ) (s : σ) (f : Value → Value) :
    ((Deduped.set (dedupTarget Value σ v0) d x s).1.get = x
      ∧ (Deduped.set (dedupTarget Value σ v0) d x s).2.1.get = x)
  ∧ ((Deduped.update (dedupTarget Value σ v0) d f s).1.get = f v0
      ∧ (Deduped.update (dedupTarget Value σ v0) d f s).2.1.get = f v0) := by
  constructor
  · constructor
    · rfl
    · by_cases h : d.value = x
      · simp [Deduped.set, Observable.set, Observable.notify, dedupTarget,
          Deduped.onTarget, Callback.run, Deduped.get, h]
      · simp [Deduped.set, Observable.set, Observable.notify, dedupTarget,
          Deduped.onTarget, Callback.run, Deduped.get, h]
  · constructor
    · rfl
    · by_cases h : d.value = f v0
      · simp [Deduped.update, Observable.update, Observable.set,
          Observable.notify, dedupTarget, Deduped.onTarget, Callback.run,
          Deduped.get, Observable.get, h]
      · simp [Deduped.update, Observable.update, Observable.set,
          Observable.notify, dedupTarget, Deduped.onTarget, Callback.run,
          Deduped.get, Observable.get, h]

/-- Helper: folding a bump-by-one step over any list adds its length. -/
lemma foldl_const_inc {α : Type} (l : List α) (n : Nat) :
    List.foldl (fun s _ => s + 1) n l = n + l.length := by
  induction l generalizing n with
  | nil => simp
  | cons a t ih => simp [List.foldl, ih, Nat.add_assoc, Nat.add_comm 1]

/-- Claim C6: every `set`/`update` on an Observable invokes each registered
callback exactly once, even when the written value equals the old one: with
a counting listener and a counting subscriber each counter rises by exactly
one (in particular when writing `v0` over `v0`), and with k counting
listeners the shared counter rises by exactly k. -/
theorem c6_set_always_notifies (v0 v : Int) (f : Int → Int) (s : Nat × Nat)
    (k : Nat) (n : Nat) :
    ((c6Obs v0).set v s).2 = (s.1 + 1, s.2 + 1)
  ∧ ((c6Obs v0).set v0 s).2 = (s.1 + 1, s.2 + 1)
  ∧ ((c6Obs v0).update f s).2 = (s.1 + 1, s.2 + 1)
  ∧ ((c6ObsK v0 k).set v n).2 = n + k
  ∧ ((c6ObsK v0 k).set v0 n).2 = n + k := by
  refine ⟨rfl, rfl, rfl, ?_, ?_⟩ <;>
  · simp [c6ObsK, Observable.set, Observable.notify, List.foldl_map,
      Callback.run, foldl_const_inc]

/-- Helper: removing an id that is not present in a registry leaves the
registry unchanged. -/
lemma filter_ne_of_not_mem {α : Type} (l : List (Nat × α)) (i : Nat)
    (h : i ∉ l.map Prod.fst) : l.filter (fun p => p.1 ≠ i) = l := by
  apply List.filter_eq_self.mpr
  intro a ha
  simp only [ne_eq, decide_not, Bool.not_eq_true', decide_eq_false_iff_not]
  intro heq
  exact h (heq ▸ List.mem_map_of_mem Prod.fst ha)

/-- Claim C7: for each emitting entity — Observable, Deduped, Derived and
Event — invoking the unregister handle returned by `listen` or `subscribe`
restores the entity exactly to its pre-registration state up to the id
counter (which is never reused), so subsequent changes never invoke that
callback: a later `set` on the Observable, `notify` on the Deduped or
Derived, and `dispatch` on the Event each behave exactly as without the
registration; invoking the handle a second (or any later) time is a no-op,
and removing an absent id is a no-op.  The hypotheses say all registered ids
are below the counter, which registration maintains. -/
theorem c7_unregister_effective_idempotent {Value σ σ2 σ3 : Type}
    (o : Observable Value σ) (d : Deduped Value σ) (dv : Derived σ2)
    (ev : Event σ3) (i : Nat)
    (cb : σ → σ) (cbs : Value → σ → σ)
    (cb2 : σ2 → σ2) (cbs2 : Int → σ2 → σ2) (cb3 : σ3 → σ3)
    (s s2 : σ) (t t2 : σ2) (u u2 : σ3) (v : Value)
    (hwfO : ∀ p ∈ o.callbacks, p.1 < o.counter)
    (hwfD : ∀ p ∈ d.callbacks, p.1 < d.counter)
    (hwfV : ∀ p ∈ dv.callbacks, p.1 < dv.counter)
    (hwfE : ∀ p ∈ ev.callbacks, p.1 < ev.counter) :
    ((o.unsubscribe i).unsubscribe i = o.unsubscribe i
      ∧ (d.unsubscribe i).unsubscribe i = d.unsubscribe i
      ∧ (dv.unsubscribe i).unsubscribe i = dv.unsubscribe i
      ∧ (ev.unsubscribe i).unsubscribe i = ev.unsubscribe i)
  ∧ ((i ∉ o.callbacks.map Prod.fst → o.unsubscribe i = o)
      ∧ (i ∉ d.callbacks.map Prod.fst → d.unsubscribe i = d)
      ∧ (i ∉ dv.callbacks.map Prod.fst → dv.unsubscribe i = dv)
      ∧ (i ∉ ev.callbacks.map Prod.fst → ev.unsubscribe i = ev))
  ∧ ((o.listen cb s).1.unsubscribe (o.listen cb s).2.1
        = { o with counter := o.counter + 1 }
      ∧ (d.listen cb s).1.unsubscribe (d.listen cb s).2.1
        = { d with counter := d.counter + 1 }
      ∧ (dv.listen cb2 t).1.unsubscribe (dv.listen cb2 t).2.1
        = { dv with counter := dv.counter + 1 }
      ∧ (ev.listen cb3 u).1.unsubscribe (ev.listen cb3 u).2.1
        = { ev with counter := ev.counter + 1 })
  ∧ ((o.subscribe cbs s).1.unsubscribe (o.subscribe cbs s).2.1
        = { o with counter := o.counter + 1 }
      ∧ (d.subscribe cbs s).1.unsubscribe (d.subscribe cbs s).2.1
        = { d with counter := d.counter + 1 }
      ∧ (dv.subscribe cbs2 t).1.unsubscribe (dv.subscribe cbs2 t).2.1
        = { dv with counter := dv.counter + 1 })
  ∧ ((((o.listen cb s).1.unsubscribe (o.listen cb s).2.1).set v s2).2
        = ({ o with value := v } : Observable Value σ).notify s2
      ∧ (((o.subscribe cbs s).1.unsubscribe (o.subscribe cbs s).2.1).set v s2).2
        = ({ o with value := v } : Observable Value σ).notify s2
      ∧ ((d.listen cb s).1.unsubscribe (d.listen cb s).2.1).notify s2
        = d.notify s2
      ∧ ((dv.subscribe cbs2 t).1.unsubscribe (dv.subscribe cbs2 t).2.1).notify t2
        = dv.notify t2
      ∧ ((ev.listen cb3 u).1.unsubscribe (ev.listen cb3 u).2.1).dispatch u2
        = ev.dispatch u2) := by
  have hOL : (o.listen cb s).1.unsubscribe (o.listen cb s).2.1
      = { o with counter := o.counter + 1 } := by
    simp [Observable.listen, Observable.unsubscribe]
    intro a b hab
    exact Nat.ne_of_lt (hwfO (a, b) hab)
  have hOS : (o.subscribe cbs s).1.unsubscribe (o.subscribe cbs s).2.1
      = { o with counter := o.counter + 1 } := by
    simp [Observable.subscribe, Observable.unsubscribe]
    intro a b hab
    exact Nat.ne_of_lt (hwfO (a, b) hab)
  have hDL : (d.listen cb s).1.unsubscribe (d.listen cb s).2.1
      = { d with counter := d.counter + 1 } := by
    simp [Deduped.listen, Deduped.unsubscribe]
    intro a b hab
    exact Nat.ne_of_lt (hwfD (a, b) hab)
  have hDS : (d.subscribe cbs s).1.unsubscribe (d.subscribe cbs s).2.1
      = { d with counter := d.counter + 1 } := by
    simp [Deduped.subscribe, Deduped.unsubscribe]
    intro a b hab
    exact Nat.ne_of_lt (hwfD (a, b) hab)
  have hVL : (dv.listen cb2 t).1.unsubscribe (dv.listen cb2 t).2.1
      = { dv with counter := dv.counter + 1 } := by
    simp [Derived.listen, Derived.unsubscribe]
    intro a b hab
    exact Nat.ne_of_lt (hwfV (a, b) hab)
  have hVS : (dv.subscribe cbs2 t).1.unsubscribe (dv.subscribe cbs2 t).2.1
      = { dv with counter := dv.counter + 1 } := by
    simp [Derived.subscribe, Derived.unsubscribe]
    intro a b hab
    exact Nat.ne_of_lt (hwfV (a, b) hab)
  have hEL : (ev.listen cb3 u).1.unsubscribe (ev.listen cb3 u).2.1
      = { ev with counter := ev.counter + 1 } := by
    simp [Event.listen, Event.unsubscribe]
    intro a b hab
    exact Nat.ne_of_lt (hwfE (a, b) hab)
  refine ⟨⟨?_, ?_, ?_, ?_⟩, ⟨?_, ?_, ?_, ?_⟩, ⟨hOL, hDL, hVL, hEL⟩,
    ⟨hOS, hDS, hVS⟩, ?_, ?_, ?_, ?_, ?_⟩
  · simp [Observable.unsubscribe, List.filter_filter]
  · simp [Deduped.unsubscribe, List.filter_filter]
  · simp [Derived.unsubscribe, List.filter_filter]
  · simp [Event.unsubscribe, List.filter_filter]
  · intro h
    show ({ o with callbacks := o.callbacks.filter (fun p => p.1 ≠ i) } :
      Observable Value σ) = o
    rw [filter_ne_of_not_mem o.callbacks i h]
  · intro h
    show ({ d with callbacks := d.callbacks.filter (fun p => p.1 ≠ i) } :
      Deduped Value σ) = d
    rw [filter_ne_of_not_mem d.callbacks i h]
  · intro h
    show ({ dv with callbacks := dv.callbacks.filter (fun p => p.1 ≠ i) } :
      Derived σ2) = dv
    rw [filter_ne_of_not_mem dv.callbacks i h]
  · intro h
    show ({ ev with callbacks := ev.callbacks.filter (fun p => p.1 ≠ i) } :
      Event σ3) = ev
    rw [filter_ne_of_not_mem ev.callbacks i h]
  · rw [hOL]; rfl
  · rw [hOS]; rfl
  · rw [hDL]; rfl
  · rw [hVS]; rfl
  · rw [hEL]; rfl

/-- Witness for claim C7 at concrete inputs: fresh entities of all four
kinds (a cell holding 0, a Deduped with shadow 1, a Derived over 1 and 2,
an Event), with handles from both listen and subscribe, id 5 absent. -/
theorem c7_unregister_witness :
    (Observable.new (0 : Int) : Observable Int Nat).unsubscribe 5
      = Observable.new 0
  ∧ (Event.new : Event Nat).unsubscribe 5 = Event.new
  ∧ ((Observable.new (0 : Int) : Observable Int Nat).listen
        (fun n => n + 1) 0).1.unsubscribe
      ((Observable.new (0 : Int) : Observable Int Nat).listen
        (fun n => n + 1) 0).2.1
      = { (Observable.new (0 : Int) : Observable Int Nat) with counter := 1 }
  ∧ ((Observable.new (0 : Int) : Observable Int Nat).subscribe
        (fun _ n => n + 1) 0).1.unsubscribe
      ((Observable.new (0 : Int) : Observable Int Nat).subscribe
        (fun _ n => n + 1) 0).2.1
      = { (Observable.new (0 : Int) : Observable Int Nat) with counter := 1 }
  ∧ (({ value := 1, callbacks := [], counter := 0 } : Deduped Int Nat).listen
        (fun n => n + 1) 0).1.unsubscribe
      (({ value := 1, callbacks := [], counter := 0 } : Deduped Int Nat).listen
        (fun n => n + 1) 0).2.1
      = { ({ value := 1, callbacks := [], counter := 0 } : Deduped Int Nat) with
          counter := 1 }
  ∧ ((Derived.new 1 2 (fun x y => x + y) : Derived Nat).subscribe
        (fun _ n => n + 1) 0).1.unsubscribe
      ((Derived.new 1 2 (fun x y => x + y) : Derived Nat).subscribe
        (fun _ n => n + 1) 0).2.1
      = { (Derived.new 1 2 (fun x y => x + y) : Derived Nat) with counter := 1 }
  ∧ ((Event.new : Event Nat).listen (fun n => n + 1) 0).1.unsubscribe
      ((Event.new : Event Nat).listen (fun n => n + 1) 0).2.1
      = { (Event.new : Event Nat) with counter := 1 }
  ∧ ((((Observable.new (0 : Int) : Observable Int Nat).listen
          (fun n => n + 1) 0).1.unsubscribe
        ((Observable.new (0 : Int) : Observable Int Nat).listen
          (fun n => n + 1) 0).2.1).set 7 3).2
      = ({ (Observable.new (0 : Int) : Observable Int Nat) with value := 7 }
          : Observable Int Nat).notify 3
  ∧ (((Event.new : Event Nat).listen (fun n => n + 1) 0).1.unsubscribe
        ((Event.new : Event Nat).listen (fun n => n + 1) 0).2.1).dispatch 3
      = (Event.new : Event Nat).dispatch 3 := by
  have h := c7_unregister_effective_idempotent
    (Observable.new (0 : Int) : Observable Int Nat)
    ({ value := 1, callbacks := [], counter := 0 } : Deduped Int Nat)
    (Derived.new 1 2 (fun x y => x + y)) (Event.new : Event Nat) 5
    (fun n => n + 1) (fun _ n => n + 1) (fun n => n + 1) (fun _ n => n + 1)
    (fun n => n + 1) 0 3 0 3 0 3 7
    (by simp [Observable.new]) (by simp) (by simp [Derived.new])
    (by simp [Event.new])
  obtain ⟨hid, habs, hlis, hsub, heff⟩ := h
  exact ⟨habs.1 (by simp [Observable.new]), habs.2.2.2 (by simp [Event.new]),
    hlis.1, hsub.1, hlis.2.1, hsub.2.2, hlis.2.2.2,
    heff.1, heff.2.2.2.2⟩



/-- Claim C1: for a Deduped wrapping a writable cell with a listener and a
subscriber registered, writing to the cell a value equal to the Deduped's
shadow invokes none of the Deduped's callbacks, writing a different value
invokes each exactly once; starting from 1, the sequence set 2; set 2; set 3
invokes each Deduped callback exactly twice (the subscriber's count starts
at 1 from its registration-time firing). -/
theorem c1_deduped_suppresses_equal_values (v0 x : Int) :
    (c1Setup v0).2.2 = (0, 1)
  ∧ (x = v0 → (c1Step (c1Setup v0) x).2.2 = (0, 1)
      ∧ (c1Step (c1Setup v0) x).2.1.get = v0)
  ∧ (x ≠ v0 → (c1Step (c1Setup v0) x).2.2 = (1, 2)
      ∧ (c1Step (c1Setup v0) x).2.1.get = x)
  ∧ (c1Step (c1Step (c1Step (c1Setup 1) 2) 2) 3).2.2 = (2, 3) := by
  have hsetup : c1Setup v0 =
      (dedupTarget Int (Nat × Nat) v0,
       { value := v0
         callbacks := [(0, Callback.Listener (fun p => (p.1 + 1, p.2))),
                       (1, Callback.Subscriber (fun _ p => (p.1, p.2 + 1)))]
         counter := 2 },
       (0, 1)) := by
    simp [c1Setup, Deduped.fromTarget, Observable.subscribe, Observable.new,
      Observable.get, Deduped.onTarget, Deduped.listen, Deduped.subscribe,
      dedupTarget]
  refine ⟨by rw [hsetup], ?_, ?_, by decide⟩
  · intro h
    subst h
    rw [hsetup]
    constructor <;>
      simp [c1Step, Observable.set, Observable.notify, dedupTarget,
        Callback.run, Deduped.onTarget, Deduped.get]
  · intro h
    have hne : ¬ (v0 = x) := fun h2 => h h2.symm
    rw [hsetup]
    constructor <;>
      simp [c1Step, Observable.set, Observable.notify, dedupTarget,
        Callback.run, Deduped.onTarget, Deduped.notify, Deduped.get, hne]

/-- Witness for claim C1 at concrete inputs: an equal write (1 over 1)
leaves the counters at (0, 1); a differing write (2 over 1) moves them to
(1, 2). -/
theorem c1_deduped_witness :
    (c1Step (c1Setup 1) 1).2.2 = (0, 1)
  ∧ (c1Step (c1Setup 1) 2).2.2 = (1, 2) :=
  ⟨((c1_deduped_suppresses_equal_values 1 1).2.1 rfl).1,
   ((c1_deduped_suppresses_equal_values 1 2).2.2.1 (by decide)).1⟩

/-- Claim C2: a Derived over two cells returns the recompute result
immediately after construction and after each upstream set, and each
upstream set invokes the Derived's listener exactly once (two upstream sets
give counter 2, never a coalesced 1); in particular for a=1, b=2 and sum:
3 initially, 7 after a.set 5, 15 after b.set 10. -/
theorem c2_derived_consistency (a0 b0 x y : Int) (f : Int → Int → Int) :
    ((c2System a0 b0 f).1.get = f a0 b0 ∧ (c2System a0 b0 f).2 = 0
      ∧ (((c2System a0 b0 f).1.setA x (c2System a0 b0 f).2).1.get = f x b0
          ∧ ((c2System a0 b0 f).1.setA x (c2System a0 b0 f).2).2 = 1)
      ∧ (let st1 := (c2System a0 b0 f).1.setA x (c2System a0 b0 f).2
         (st1.1.setB y st1.2).1.get = f x y ∧ (st1.1.setB y st1.2).2 = 2))
  ∧ ((c2System 1 2 (fun u v => u + v)).1.get = 3
      ∧ (let st1 := (c2System 1 2 (fun u v => u + v)).1.setA 5
           (c2System 1 2 (fun u v => u + v)).2
         st1.1.get = 7
         ∧ (st1.1.setB 10 st1.2).1.get = 15 ∧ (st1.1.setB 10 st1.2).2 = 2)) := by
  refine ⟨⟨rfl, rfl, ⟨rfl, rfl⟩, rfl, rfl⟩, rfl, rfl, rfl, rfl⟩

/-- Claim C3 (refuting the claimed absence of lost updates): the schedule in
which both threads take the value read lock of `update` before either
performs its `set` is a valid two-thread schedule of one `update (+1)` each,
yet it ends with value 1, not the claimed 2 — `update` releases the read
lock before `set` reacquires the write lock, so the second write overwrites
the first (the counting listener does fire twice, as the claim says).  A
fully serialized schedule of the same two updates ends at 2. -/
theorem c3_concurrent_update_lost_update :
    validSchedule 2 [ConcAct.readCompute 0, ConcAct.readCompute 1,
      ConcAct.writeNotify 0, ConcAct.writeNotify 1]
  ∧ (concRun (fun v => v + 1) 2 [ConcAct.readCompute 0, ConcAct.readCompute 1,
      ConcAct.writeNotify 0, ConcAct.writeNotify 1]).value = 1
  ∧ (concRun (fun v => v + 1) 2 [ConcAct.readCompute 0, ConcAct.readCompute 1,
      ConcAct.writeNotify 0, ConcAct.writeNotify 1]).value ≠ 2
  ∧ (concRun (fun v => v + 1) 2 [ConcAct.readCompute 0, ConcAct.readCompute 1,
      ConcAct.writeNotify 0, ConcAct.writeNotify 1]).notifyCount = 2
  ∧ (concRun (fun v => v + 1) 2 [ConcAct.readCompute 0, ConcAct.writeNotify 0,
      ConcAct.readCompute 1, ConcAct.writeNotify 1]).value = 2 := by
  refine ⟨⟨?_, ?_, ?_⟩, rfl, by decide, rfl, rfl⟩ <;> decide
